import Mathlib

/-!
# Verification of the image-generation API route

Shallow embedding of `src/app/api/generate/route.ts`: the in-memory rate
limiter (`isRateLimited`), the retrying inference client
(`generateImageWithRetry`) and the request handler (`POST`), together with
theorems settling the specification claims about them.

Timestamps are JavaScript `Date.now()` millisecond values, modelled as `Int`.
The upstream HTTP service is modelled as an oracle mapping the arguments of a
`fetch` call (model id, prompt, API key, attempt index) to an outcome: either
a response with a status code and a body, or a thrown transport error.
-/

namespace Route

/-! ## Constants (route.ts lines 4-7) -/

/-- `RATE_LIMIT_WINDOW = 60 * 1000` (one minute, in milliseconds). -/
def RATE_LIMIT_WINDOW : Int := 60 * 1000

/-- `MAX_REQUESTS_PER_WINDOW = 5`. -/
def MAX_REQUESTS_PER_WINDOW : Nat := 5

/-- `MAX_RETRIES = 3`. -/
def MAX_RETRIES : Nat := 3

/-- `RETRY_DELAY = 2000` milliseconds. -/
def RETRY_DELAY : Nat := 2000

/-! ## Rate limiter (route.ts lines 9-18)

`requestLog` is a process-wide map from user id to the list of recorded
request timestamps; we model it as a total function from `String` to
`List Int` (absent keys map to `[]`, matching `requestLog[userId] || []`). -/

/-- The `requestLog` map: user id to recorded timestamps. -/
def RequestLogMap := String → List Int

/-- The initial, empty `requestLog = {}`. -/
def emptyRequestLog : RequestLogMap := fun _ => []

/-- Write one entry of the map, as `requestLog[userId] = v` does. -/
def setLog (log : RequestLogMap) (userId : String) (v : List Int) :
    RequestLogMap :=
  fun k => if k = userId then v else log k

/-- The pruning step of `isRateLimited`:
`userRequests.filter(timestamp => now - timestamp < RATE_LIMIT_WINDOW)`. -/
def pruneLog (now : Int) (requests : List Int) : List Int :=
  requests.filter (fun timestamp => now - timestamp < RATE_LIMIT_WINDOW)

/-- Core of `isRateLimited` on the entry of one user id: given the current
time and the stored timestamp list, return whether the caller is
rate-limited together with the new stored list.  Mirrors route.ts lines
12-17: prune, compare the remaining count with the quota (reject without
recording when `≥`), otherwise append `now` and accept. -/
def isRateLimitedCore (now : Int) (userRequests : List Int) :
    Bool × List Int :=
  let pruned := pruneLog now userRequests
  if MAX_REQUESTS_PER_WINDOW ≤ pruned.length then
    (true, pruned)
  else
    (false, pruned ++ [now])

/-- `isRateLimited(userId)` acting on the whole `requestLog` map: returns
the boolean result and the updated map. -/
def isRateLimited (userId : String) (now : Int) (log : RequestLogMap) :
    Bool × RequestLogMap :=
  let r := isRateLimitedCore now (log userId)
  (r.1, setLog log userId r.2)

/-- One call to the rate-limit check: the caller identity and the value of
`Date.now()` at the call. -/
structure RLCall where
  userId : String
  now : Int

/-- State transformer of one rate-limit check (discarding the boolean). -/
def requestLogStep (log : RequestLogMap) (c : RLCall) : RequestLogMap :=
  (isRateLimited c.userId c.now log).2

/-- Run a sequence of rate-limit checks from the empty map. -/
def runCalls (cs : List RLCall) : RequestLogMap :=
  cs.foldl requestLogStep emptyRequestLog

/-! ## Inference client (route.ts lines 24-99)

`generateImageWithRetry(modelId, prompt, API_KEY, retryCount)` performs one
`fetch` per invocation and recurses with `retryCount + 1` on retries.  The
upstream service is an oracle from the fetch arguments plus the attempt index
to an outcome.  The randomized seed in the request parameters does not affect
control flow and is not modelled. -/

/-- Outcome of one `fetch` call: a response (status code plus body text), or
a thrown transport error carrying a message. -/
inductive FetchOutcome where
  | response (status : Nat) (body : String)
  | throws (msg : String)
deriving DecidableEq

/-- The upstream oracle: model id, prompt, API key, attempt index (the
`retryCount` of the invocation performing the fetch) to outcome. -/
def Upstream := String → String → String → Nat → FetchOutcome

/-- `response.ok` of the Fetch API: status in the range 200-299. -/
def responseOk (status : Nat) : Bool :=
  200 ≤ status && status < 300

/-- The message of the error thrown on a non-ok response:
``Error(`HTTP error! status: ${response.status}, body: ${errorText}`)``. -/
def httpErrorMsg (status : Nat) (body : String) : String :=
  "HTTP error! status: " ++ toString status ++ ", body: " ++ body

/-- Result of `generateImageWithRetry`: the returned image bytes or the
message of the error finally thrown, together with how many `sleep
(RETRY_DELAY)` delays were performed and how many `fetch` calls were made. -/
structure GenOutcome where
  result : Except String String
  delays : Nat
  attempts : Nat
deriving Repr

/-- Prepend one performed fetch, and one delay, to an outcome (used when an
invocation sleeps and recurses). -/
def GenOutcome.afterRetry (g : GenOutcome) : GenOutcome :=
  { g with delays := g.delays + 1, attempts := g.attempts + 1 }

/-- `generateImageWithRetry` (route.ts lines 24-99).  Control flow per
invocation, faithful to the `try/catch`:

* the fetch throws → caught by the `catch`: retry (sleep, recurse) while
  `retryCount < MAX_RETRIES`, else rethrow (line 92-97);
* status 503 and `retryCount < MAX_RETRIES` → sleep and recurse (line 62-66);
* any other non-ok status → `throw new Error(httpErrorMsg …)` (line 68-78),
  which the function's own `catch` catches: retry while
  `retryCount < MAX_RETRIES`, else rethrow;
* ok → return the body (line 81). -/
def generateImageWithRetry (fetch : Upstream)
    (modelId prompt API_KEY : String) (retryCount : Nat) : GenOutcome :=
  match fetch modelId prompt API_KEY retryCount with
  | .throws msg =>
    if retryCount < MAX_RETRIES then
      (generateImageWithRetry fetch modelId prompt API_KEY
        (retryCount + 1)).afterRetry
    else
      ⟨.error msg, 0, 1⟩
  | .response status body =>
    if status = 503 ∧ retryCount < MAX_RETRIES then
      (generateImageWithRetry fetch modelId prompt API_KEY
        (retryCount + 1)).afterRetry
    else if ¬ responseOk status then
      -- the thrown `HTTP error!` is caught by this invocation's own catch
      if retryCount < MAX_RETRIES then
        (generateImageWithRetry fetch modelId prompt API_KEY
          (retryCount + 1)).afterRetry
      else
        ⟨.error (httpErrorMsg status body), 0, 1⟩
    else
      ⟨.ok body, 0, 1⟩
termination_by MAX_RETRIES + 1 - retryCount
decreasing_by all_goals omega

/-! ## Request handler (route.ts lines 101-180) -/

/-- JavaScript substring containment, `s.includes(sub)`. -/
def strContains (s sub : String) : Bool :=
  decide (sub.data <:+: s.data)

/-- JavaScript falsiness of an optional string field: missing (`undefined` /
`null`) or the empty string. -/
def strFalsy (s : Option String) : Bool :=
  s = none ∨ s = some ""

/-- Model selection (route.ts lines 130-132): strict equality with
`'waifu'`; every other value of the field falls to OpenJourney. -/
def modelIdOf (model : Option String) : String :=
  if model = some "waifu" then "hakurei/waifu-diffusion"
  else "prompthero/openjourney-v4"

/-- Prompt composition (route.ts lines 134-136). -/
def enhancedPromptOf (model : Option String) (prompt : String) : String :=
  if model = some "waifu" then
    "masterpiece, best quality, ultra-detailed, illustration, " ++ prompt
      ++ ", anime style"
  else
    prompt ++ ", high quality, masterpiece, highly detailed, realistic"

/-- Caller identity (route.ts line 120):
`request.headers.get('x-forwarded-for') || 'anonymous'` — a missing or
empty header falls back to the shared `"anonymous"` identity. -/
def userIdOf (forwardedFor : Option String) : String :=
  match forwardedFor with
  | some s => if s = "" then "anonymous" else s
  | none => "anonymous"

/-- An inbound request: the parsed JSON body (`none` when `request.json()`
throws, otherwise the `prompt` and `model` fields, each possibly absent) and
the `x-forwarded-for` header. -/
structure PostRequest where
  jsonBody : Option (Option String × Option String)
  forwardedFor : Option String

/-- Body of the JSON response: a success payload carrying the image bytes
(the base64 data-URL encoding of the bytes is not modelled, no claim
concerns it), or an error message. -/
inductive RespBody where
  | output (image : String)
  | error (msg : String)
deriving DecidableEq

/-- A structured JSON response with its HTTP status code. -/
structure ApiResponse where
  status : Nat
  body : RespBody
deriving DecidableEq

/-- Result of one `POST` call: the response, the `requestLog` map afterwards
and the number of upstream `fetch` calls performed. -/
structure PostResult where
  response : ApiResponse
  log : RequestLogMap
  upstreamCalls : Nat

/-- The process environment, mapping variable names to values. -/
def Env := String → Option String

/-- `POST` (route.ts lines 101-180).  The outer `try/catch` makes a
`request.json()` failure produce the generic 500; every other path is the
body's explicit returns. -/
def POST (env : Env) (req : PostRequest) (now : Int) (log : RequestLogMap)
    (fetch : Upstream) : PostResult :=
  match req.jsonBody with
  | none =>
    ⟨⟨500, .error "An unexpected error occurred. Please try again."⟩, log, 0⟩
  | some (promptField, modelField) =>
    if strFalsy promptField then
      ⟨⟨400, .error "Prompt is required"⟩, log, 0⟩
    else
      let prompt := promptField.getD ""
      if strFalsy (env "HUGGINGFACE_API_KEY") then
        ⟨⟨500, .error "Hugging Face API key not configured"⟩, log, 0⟩
      else
        let API_KEY := (env "HUGGINGFACE_API_KEY").getD ""
        let userId := userIdOf req.forwardedFor
        let rl := isRateLimited userId now log
        if rl.1 then
          ⟨⟨429, .error
            "Rate limit exceeded. Please wait 1 minute before trying again."⟩,
            rl.2, 0⟩
        else
          let modelId := modelIdOf modelField
          let enhancedPrompt := enhancedPromptOf modelField prompt
          let gen := generateImageWithRetry fetch modelId enhancedPrompt
            API_KEY 0
          match gen.result with
          | .ok image => ⟨⟨200, .output image⟩, rl.2, gen.attempts⟩
          | .error msg =>
            if strContains msg "429" then
              ⟨⟨429, .error
                "Too many requests. Please wait a minute and try again."⟩,
                rl.2, gen.attempts⟩
            else if strContains msg "503" then
              ⟨⟨503, .error
                "Model is currently loading. Please try again in a few seconds."⟩,
                rl.2, gen.attempts⟩
            else
              ⟨⟨500, .error ("Failed to generate image: "
                ++ (if msg = "" then "Unknown error" else msg))⟩,
                rl.2, gen.attempts⟩

/-! ## Rate limiter lemmas -/

/-- Elements kept by pruning lie strictly inside the window. -/
theorem mem_pruneLog {now ts : Int} {requests : List Int}
    (h : ts ∈ pruneLog now requests) : now - ts < RATE_LIMIT_WINDOW := by
  have := List.of_mem_filter h
  exact of_decide_eq_true this

/-- Pruning never lengthens the stored list. -/
theorem pruneLog_length_le (now : Int) (requests : List Int) :
    (pruneLog now requests).length ≤ requests.length :=
  List.length_filter_le _ _

/-- The entry of a user id other than the caller's is untouched by one
rate-limit check. -/
theorem requestLogStep_other (log : RequestLogMap) (c : RLCall) (u : String)
    (h : u ≠ c.userId) : requestLogStep log c u = log u := by
  simp [requestLogStep, isRateLimited, setLog, h]

/-- The caller's entry after one rate-limit check is the pruned list when
the check rejected (quota reached), and the pruned list with the current
time appended when it accepted. -/
theorem requestLogStep_self (log : RequestLogMap) (c : RLCall) :
    (MAX_REQUESTS_PER_WINDOW ≤ (pruneLog c.now (log c.userId)).length ∧
      requestLogStep log c c.userId = pruneLog c.now (log c.userId)) ∨
    ((pruneLog c.now (log c.userId)).length < MAX_REQUESTS_PER_WINDOW ∧
      requestLogStep log c c.userId
        = pruneLog c.now (log c.userId) ++ [c.now]) := by
  have h : requestLogStep log c c.userId
      = (isRateLimitedCore c.now (log c.userId)).2 := by
    simp [requestLogStep, isRateLimited, setLog]
  rw [h]
  simp only [isRateLimitedCore]
  by_cases hq : MAX_REQUESTS_PER_WINDOW ≤ (pruneLog c.now (log c.userId)).length
  · left
    simp [hq]
  · right
    simp [hq, not_le.mp hq]

/-- One rate-limit check keeps every entry's length at most the quota. -/
theorem requestLogStep_length_le (log : RequestLogMap) (c : RLCall)
    (h : ∀ u, (log u).length ≤ MAX_REQUESTS_PER_WINDOW) (u : String) :
    ((requestLogStep log c) u).length ≤ MAX_REQUESTS_PER_WINDOW := by
  by_cases hu : u = c.userId
  · subst hu
    rcases requestLogStep_self log c with ⟨_, hs⟩ | ⟨hlt, hs⟩
    · rw [hs]
      exact le_trans (pruneLog_length_le _ _) (h c.userId)
    · rw [hs, List.length_append]
      simpa using hlt
  · rw [requestLogStep_other log c u hu]
    exact h u

/-- Every entry of the map reached by any sequence of rate-limit checks from
the empty map has length at most the quota. -/
theorem runCalls_length_le (cs : List RLCall) (u : String) :
    ((runCalls cs) u).length ≤ MAX_REQUESTS_PER_WINDOW := by
  suffices h : ∀ (init : RequestLogMap),
      (∀ v, (init v).length ≤ MAX_REQUESTS_PER_WINDOW) →
      ∀ v, ((cs.foldl requestLogStep init) v).length
        ≤ MAX_REQUESTS_PER_WINDOW by
    exact h emptyRequestLog (fun _ => by simp [emptyRequestLog]) u
  induction cs with
  | nil => intro init hinit v; exact hinit v
  | cons c cs ih =>
    intro init hinit v
    exact ih (requestLogStep init c)
      (requestLogStep_length_le init c hinit) v

/-! ## Claim theorems: rate limiter -/

/-- C1: for any identity, a check made while 5 recorded timestamps lie
within the last 60 seconds is rejected, and a check made when every recorded
timestamp for the identity is at least 60 seconds old is accepted —
timestamps older than the window are pruned before the count is compared to
the quota. -/
theorem rateLimiter_sliding_window (userId : String) (now : Int)
    (log : RequestLogMap) :
    RATE_LIMIT_WINDOW = 60 * 1000 ∧ MAX_REQUESTS_PER_WINDOW = 5 ∧
    (((log userId).countP
        fun ts => decide (now - ts < RATE_LIMIT_WINDOW)) = 5 →
      (isRateLimited userId now log).1 = true) ∧
    ((∀ ts ∈ log userId, RATE_LIMIT_WINDOW ≤ now - ts) →
      (isRateLimited userId now log).1 = false) := by
  refine ⟨rfl, rfl, ?_, ?_⟩
  · intro h5
    have hlen : (pruneLog now (log userId)).length = 5 := by
      rw [pruneLog, ← List.countP_eq_length_filter]
      exact h5
    simp [isRateLimited, isRateLimitedCore, hlen, MAX_REQUESTS_PER_WINDOW]
  · intro hold
    have hempty : pruneLog now (log userId) = [] := by
      rw [pruneLog, List.filter_eq_nil_iff]
      intro ts hts
      simpa using not_lt.mpr (hold ts hts)
    simp [isRateLimited, isRateLimitedCore, hempty, MAX_REQUESTS_PER_WINDOW]

/-- C1 witness: five timestamps all within the window force a rejection, and
a call 61 seconds after the newest of five stale timestamps is accepted. -/
theorem rateLimiter_sliding_window_witness :
    (isRateLimited "1.2.3.4" 1000
      (setLog emptyRequestLog "1.2.3.4" [0, 200, 400, 600, 800])).1
      = true ∧
    (isRateLimited "1.2.3.4" 61000
      (setLog emptyRequestLog "1.2.3.4" [0, 200, 400, 600, 800])).1
      = false := by
  constructor
  · exact (rateLimiter_sliding_window "1.2.3.4" 1000 _).2.2.1 (by decide)
  · exact (rateLimiter_sliding_window "1.2.3.4" 61000 _).2.2.2 (by decide)

/-- C8: when the pruned timestamp count is at or above the quota, the check
rejects and records nothing: the stored entry becomes exactly the pruned
list (the current timestamp is not appended), so the entry does not grow. -/
theorem rateLimiter_rejected_records_nothing (userId : String) (now : Int)
    (log : RequestLogMap)
    (h : MAX_REQUESTS_PER_WINDOW ≤ (pruneLog now (log userId)).length) :
    (isRateLimited userId now log).1 = true ∧
    (isRateLimited userId now log).2 userId = pruneLog now (log userId) ∧
    ((isRateLimited userId now log).2 userId).length
      ≤ (log userId).length := by
  refine ⟨?_, ?_, ?_⟩ <;>
    simp [isRateLimited, isRateLimitedCore, setLog, if_pos h,
      pruneLog_length_le]

/-- C8 witness: a full window of five fresh timestamps is rejected and the
stored entry is exactly the pruned (here: unchanged) list. -/
theorem rateLimiter_rejected_records_nothing_witness :
    (isRateLimited "a" 1000
      (setLog emptyRequestLog "a" [0, 200, 400, 600, 800])).1 = true ∧
    (isRateLimited "a" 1000
        (setLog emptyRequestLog "a" [0, 200, 400, 600, 800])).2 "a"
      = pruneLog 1000
        ((setLog emptyRequestLog "a" [0, 200, 400, 600, 800]) "a") ∧
    ((isRateLimited "a" 1000
        (setLog emptyRequestLog "a" [0, 200, 400, 600, 800])).2 "a").length
      ≤ ((setLog emptyRequestLog "a" [0, 200, 400, 600, 800]) "a").length :=
  rateLimiter_rejected_records_nothing "a" 1000 _ (by decide)

/-- C9: after any sequence of rate-limit checks from the empty map, the
entry of the identity just checked has length at most the quota (5) and
contains only timestamps strictly newer than one window (60 s) before the
current call's time. -/
theorem rateLimiter_state_invariant (cs : List RLCall) (c : RLCall) :
    ((runCalls (cs ++ [c])) c.userId).length ≤ MAX_REQUESTS_PER_WINDOW ∧
    ∀ ts ∈ (runCalls (cs ++ [c])) c.userId,
      c.now - RATE_LIMIT_WINDOW < ts := by
  have hstep : runCalls (cs ++ [c]) = requestLogStep (runCalls cs) c := by
    simp [runCalls, List.foldl_append]
  constructor
  · rw [hstep]
    exact requestLogStep_length_le (runCalls cs) c
      (fun u => runCalls_length_le cs u) c.userId
  · rw [hstep]
    intro ts hts
    have hwin : c.now - ts < RATE_LIMIT_WINDOW := by
      rcases requestLogStep_self (runCalls cs) c with ⟨_, hself⟩ | ⟨_, hself⟩ <;>
        rw [hself] at hts
      · exact mem_pruneLog hts
      · rcases List.mem_append.mp hts with hmem | hmem
        · exact mem_pruneLog hmem
        · simp only [List.mem_singleton] at hmem
          subst hmem
          simp [RATE_LIMIT_WINDOW]
    omega

/-- C9 witness: after six checks for one identity (one outside the window),
its entry holds at most five timestamps, all inside the final window. -/
theorem rateLimiter_state_invariant_witness :
    ((runCalls ([⟨"a", 0⟩, ⟨"a", 100⟩, ⟨"a", 200⟩, ⟨"a", 300⟩, ⟨"a", 400⟩]
        ++ [⟨"a", 61000⟩])) (RLCall.mk "a" 61000).userId).length
      ≤ MAX_REQUESTS_PER_WINDOW ∧
    ∀ ts ∈ (runCalls ([⟨"a", 0⟩, ⟨"a", 100⟩, ⟨"a", 200⟩, ⟨"a", 300⟩,
        ⟨"a", 400⟩] ++ [⟨"a", 61000⟩])) (RLCall.mk "a" 61000).userId,
      (RLCall.mk "a" 61000).now - RATE_LIMIT_WINDOW < ts :=
  rateLimiter_state_invariant
    [⟨"a", 0⟩, ⟨"a", 100⟩, ⟨"a", 200⟩, ⟨"a", 300⟩, ⟨"a", 400⟩]
    ⟨"a", 61000⟩

/-! ## Inference client lemmas -/

/-- `generateImageWithRetry` consults the upstream only through the fetch
arguments it was given: two oracles agreeing on that column give identical
outcomes.  Auxiliary fuel-indexed version. -/
theorem generateImageWithRetry_congr_aux (n : Nat) :
    ∀ (fetch fetch' : Upstream) (m p k : String) (r : Nat),
      MAX_RETRIES + 1 - r ≤ n →
      (∀ i, fetch m p k i = fetch' m p k i) →
      generateImageWithRetry fetch m p k r
        = generateImageWithRetry fetch' m p k r := by
  induction n with
  | zero =>
    intro fetch fetch' m p k r hr h
    conv_lhs => rw [generateImageWithRetry.eq_def]
    conv_rhs => rw [generateImageWithRetry.eq_def]
    rw [h r]
    have hlt : ¬ r < MAX_RETRIES := by omega
    cases fetch' m p k r <;> simp [hlt]
  | succ n ih =>
    intro fetch fetch' m p k r hr h
    conv_lhs => rw [generateImageWithRetry.eq_def]
    conv_rhs => rw [generateImageWithRetry.eq_def]
    rw [h r]
    have hrec := ih fetch fetch' m p k (r + 1) (by omega) h
    cases fetch' m p k r <;> simp [hrec]

/-- Congruence of the retry loop in the upstream oracle. -/
theorem generateImageWithRetry_congr (fetch fetch' : Upstream)
    (m p k : String) (r : Nat)
    (h : ∀ i, fetch m p k i = fetch' m p k i) :
    generateImageWithRetry fetch m p k r
      = generateImageWithRetry fetch' m p k r :=
  generateImageWithRetry_congr_aux (MAX_RETRIES + 1 - r) fetch fetch' m p k r
    le_rfl h

/-- Substring containment survives appending on the right. -/
theorem strContains_append_left (a b sub : String)
    (h : strContains a sub = true) : strContains (a ++ b) sub = true := by
  simp only [strContains, decide_eq_true_eq] at h ⊢
  obtain ⟨s, t, hst⟩ := h
  exact ⟨s, t ++ b.data, by rw [String.data_append, ← hst]; simp⟩

/-- The `HTTP error!` message for a 503 always carries the substring
`"503"`, whatever the response body. -/
theorem httpErrorMsg_contains_503 (body : String) :
    strContains (httpErrorMsg 503 body) "503" = true := by
  have h : strContains ("HTTP error! status: " ++ toString (503 : Nat)
      ++ ", body: ") "503" = true := by decide
  exact strContains_append_left _ body _ h

/-- The `HTTP error!` message for a 429 always carries the substring
`"429"`, whatever the response body. -/
theorem httpErrorMsg_contains_429 (body : String) :
    strContains (httpErrorMsg 429 body) "429" = true := by
  have h : strContains ("HTTP error! status: " ++ toString (429 : Nat)
      ++ ", body: ") "429" = true := by decide
  exact strContains_append_left _ body _ h

/-! ## Claim theorems: inference client retry policy -/

/-- C2: for every model id, prompt and key, an upstream answering
[503, 503, 200] makes `generateImageWithRetry` return the final success
payload after exactly 2 delays; an upstream answering 503 on every attempt
makes it fail after exactly 3 delays (4 attempts, not 5) with the HTTP
error for status 503 — the model-loading signal, whose message carries
`"503"`. -/
theorem genClient_503_retry_bounds (modelId prompt key : String) :
    MAX_RETRIES = 3 ∧ RETRY_DELAY = 2000 ∧
    (∀ (fetch : Upstream) (b0 b1 b2 : String),
      fetch modelId prompt key 0 = .response 503 b0 →
      fetch modelId prompt key 1 = .response 503 b1 →
      fetch modelId prompt key 2 = .response 200 b2 →
      generateImageWithRetry fetch modelId prompt key 0
        = ⟨.ok b2, 2, 3⟩) ∧
    (∀ (fetch : Upstream) (b : Nat → String),
      (∀ i, i ≤ MAX_RETRIES →
        fetch modelId prompt key i = .response 503 (b i)) →
      generateImageWithRetry fetch modelId prompt key 0
        = ⟨.error (httpErrorMsg 503 (b 3)), 3, 4⟩ ∧
      strContains (httpErrorMsg 503 (b 3)) "503" = true) := by
  refine ⟨rfl, rfl, ?_, ?_⟩
  · intro fetch b0 b1 b2 h0 h1 h2
    simp [generateImageWithRetry, h0, h1, h2, responseOk, MAX_RETRIES,
      GenOutcome.afterRetry]
  · intro fetch b h
    have h0 := h 0 (by simp [MAX_RETRIES])
    have h1 := h 1 (by simp [MAX_RETRIES])
    have h2 := h 2 (by simp [MAX_RETRIES])
    have h3 := h 3 (by simp [MAX_RETRIES])
    refine ⟨?_, httpErrorMsg_contains_503 (b 3)⟩
    simp [generateImageWithRetry, h0, h1, h2, h3, responseOk, MAX_RETRIES,
      GenOutcome.afterRetry]

/-- An upstream that warms up: 503 on the first two attempts, success
afterwards. -/
def fetchWarmup : Upstream := fun _ _ _ i =>
  if i < 2 then .response 503 "warming" else .response 200 "imagebytes"

/-- An upstream that never stops returning 503. -/
def fetchAlways503 : Upstream := fun _ _ _ _ => .response 503 "loading"

/-- C2 witness: the two retry-bound scenarios at concrete upstreams. -/
theorem genClient_503_retry_bounds_witness :
    generateImageWithRetry fetchWarmup "m" "p" "k" 0
      = ⟨.ok "imagebytes", 2, 3⟩ ∧
    generateImageWithRetry fetchAlways503 "m" "p" "k" 0
      = ⟨.error (httpErrorMsg 503 "loading"), 3, 4⟩ := by
  constructor
  · exact (genClient_503_retry_bounds "m" "p" "k").2.2.1 fetchWarmup
      "warming" "warming" "imagebytes" rfl rfl rfl
  · exact ((genClient_503_retry_bounds "m" "p" "k").2.2.2 fetchAlways503
      (fun _ => "loading") (fun _ _ => rfl)).1

/-- An upstream that always answers 429. -/
def fetch429 : Upstream := fun _ _ _ _ => .response 429 "quota"

/-- C3 counterexample: with the upstream answering 429 from the very first
attempt, `generateImageWithRetry` does not fail immediately: it performs 4
attempts and 3 delays (the catch-all retry path also retries 429s), so the
claimed zero-delay, single-attempt behaviour is false. -/
theorem genClient_429_not_immediate_cex :
    fetch429 "prompthero/openjourney-v4" "p" "k" 0
      = .response 429 "quota" ∧
    generateImageWithRetry fetch429 "prompthero/openjourney-v4" "p" "k" 0
      = ⟨.error (httpErrorMsg 429 "quota"), 3, 4⟩ ∧
    ¬ ((generateImageWithRetry fetch429
          "prompthero/openjourney-v4" "p" "k" 0).delays = 0 ∧
       (generateImageWithRetry fetch429
          "prompthero/openjourney-v4" "p" "k" 0).attempts = 1) := by
  have hgen : generateImageWithRetry fetch429
      "prompthero/openjourney-v4" "p" "k" 0
      = ⟨.error (httpErrorMsg 429 "quota"), 3, 4⟩ := by
    simp [generateImageWithRetry, fetch429, responseOk, MAX_RETRIES,
      GenOutcome.afterRetry]
  refine ⟨rfl, hgen, ?_⟩
  rw [hgen]
  simp

/-- C3 amended: an upstream 429 is retried like any other non-503 failure —
with 429 on every attempt, `generateImageWithRetry` performs 4 attempts and
3 delays before failing with the HTTP error for status 429, whose message
carries `"429"` (the handler's rate-limited signal). -/
theorem genClient_429_retried_like_other_errors
    (modelId prompt key : String) (fetch : Upstream) (b : Nat → String)
    (h : ∀ i, i ≤ MAX_RETRIES →
      fetch modelId prompt key i = .response 429 (b i)) :
    generateImageWithRetry fetch modelId prompt key 0
      = ⟨.error (httpErrorMsg 429 (b 3)), 3, 4⟩ ∧
    strContains (httpErrorMsg 429 (b 3)) "429" = true := by
  have h0 := h 0 (by simp [MAX_RETRIES])
  have h1 := h 1 (by simp [MAX_RETRIES])
  have h2 := h 2 (by simp [MAX_RETRIES])
  have h3 := h 3 (by simp [MAX_RETRIES])
  refine ⟨?_, httpErrorMsg_contains_429 (b 3)⟩
  simp [generateImageWithRetry, h0, h1, h2, h3, responseOk, MAX_RETRIES,
    GenOutcome.afterRetry]

/-- C3 amended witness: the constant-429 upstream realizes the retried
behaviour. -/
theorem genClient_429_retried_like_other_errors_witness :
    generateImageWithRetry fetch429 "m" "p" "k" 0
      = ⟨.error (httpErrorMsg 429 "quota"), 3, 4⟩ ∧
    strContains (httpErrorMsg 429 "quota") "429" = true :=
  genClient_429_retried_like_other_errors "m" "p" "k" fetch429
    (fun _ => "quota") (fun _ _ => rfl)

/-! ## Claim theorems: request handler -/

/-- C4: a request whose prompt field is empty or missing is answered with
the 400 invalid-input error before anything else happens: the upstream is
fetched zero times and the rate-limit state is untouched. -/
theorem handler_empty_prompt_no_network (env : Env) (req : PostRequest)
    (now : Int) (log : RequestLogMap) (fetch : Upstream)
    (pm : Option String × Option String)
    (hbody : req.jsonBody = some pm) (hfalsy : strFalsy pm.1 = true) :
    POST env req now log fetch
      = ⟨⟨400, .error "Prompt is required"⟩, log, 0⟩ := by
  obtain ⟨pf, mf⟩ := pm
  simp [POST, hbody, hfalsy]

/-- An upstream that always succeeds. -/
def fetchOk : Upstream := fun _ _ _ _ => .response 200 "img"

/-- C4 witness: an empty and a missing prompt both yield the 400 with zero
upstream calls. -/
theorem handler_empty_prompt_no_network_witness :
    POST (fun _ => some "key") ⟨some (some "", some "waifu"), some "1.2.3.4"⟩
        7 emptyRequestLog fetchOk
      = ⟨⟨400, .error "Prompt is required"⟩, emptyRequestLog, 0⟩ ∧
    POST (fun _ => some "key") ⟨some (none, none), none⟩
        7 emptyRequestLog fetchOk
      = ⟨⟨400, .error "Prompt is required"⟩, emptyRequestLog, 0⟩ :=
  ⟨handler_empty_prompt_no_network _ _ 7 _ _ (some "", some "waifu") rfl
      (by decide),
   handler_empty_prompt_no_network _ _ 7 _ _ (none, none) rfl (by decide)⟩

/-- C7: for every inbound request, environment, rate-limit state and
upstream behaviour (success, any HTTP status, or thrown transport error —
and a throwing `request.json()`), `POST` terminates in a structured
response whose status is one of 200, 400, 429, 500, 503; no raw exception
escapes the handler. -/
theorem handler_always_structured_response (env : Env) (req : PostRequest)
    (now : Int) (log : RequestLogMap) (fetch : Upstream) :
    (POST env req now log fetch).response.status ∈
      ([200, 400, 429, 500, 503] : List Nat) := by
  simp only [POST]
  split
  all_goals try split
  all_goals try split
  all_goals try split
  all_goals try split
  all_goals try split
  all_goals try split
  all_goals simp

/-- C10: model selection never rejects — any model field other than the
exact string `waifu` (other strings, or a missing/null field) selects the
OpenJourney model id and the realistic style suffix, `waifu` selects the
waifu-diffusion model id and the anime style suffix, and the handler's only
400 response comes from a falsy prompt, never from the model field. -/
theorem handler_model_selection_total (m : Option String) (p : String) :
    (m ≠ some "waifu" →
      modelIdOf m = "prompthero/openjourney-v4" ∧
      enhancedPromptOf m p
        = p ++ ", high quality, masterpiece, highly detailed, realistic") ∧
    (modelIdOf (some "waifu") = "hakurei/waifu-diffusion" ∧
      enhancedPromptOf (some "waifu") p
        = "masterpiece, best quality, ultra-detailed, illustration, " ++ p
          ++ ", anime style") ∧
    (∀ (env : Env) (req : PostRequest) (now : Int) (log : RequestLogMap)
        (fetch : Upstream) (pm : Option String × Option String),
      req.jsonBody = some pm →
      (POST env req now log fetch).response.status = 400 →
      strFalsy pm.1 = true) := by
  refine ⟨fun hm => ⟨?_, ?_⟩, ⟨?_, ?_⟩, ?_⟩
  · simp [modelIdOf, hm]
  · simp [enhancedPromptOf, hm]
  · simp [modelIdOf]
  · simp [enhancedPromptOf]
  · intro env req now log fetch pm hbody h400
    by_contra hfl
    rw [Bool.not_eq_true] at hfl
    obtain ⟨pf, mf⟩ := pm
    simp only [POST, hbody, hfl, Bool.false_eq_true, if_false] at h400
    repeat' split at h400
    all_goals simp_all

/-- C10 witness: an unrecognized model string selects OpenJourney with the
realistic suffix; `waifu` selects waifu-diffusion with the anime suffix. -/
theorem handler_model_selection_total_witness :
    (modelIdOf (some "unknown-model") = "prompthero/openjourney-v4" ∧
      enhancedPromptOf (some "unknown-model") "cat"
        = "cat" ++ ", high quality, masterpiece, highly detailed, realistic")
    ∧ modelIdOf (some "waifu") = "hakurei/waifu-diffusion" :=
  ⟨(handler_model_selection_total (some "unknown-model") "cat").1
      (by decide),
   (handler_model_selection_total (some "waifu") "cat").2.1.1⟩

/-- An environment configuring both a primary and a backup credential. -/
def envWithBackup : Env := fun name =>
  if name = "HUGGINGFACE_API_KEY" then some "primary-key"
  else if name = "HUGGINGFACE_API_KEY_BACKUP" then some "backup-key"
  else none

/-- The same environment without the backup credential. -/
def envNoBackup : Env := fun name =>
  if name = "HUGGINGFACE_API_KEY" then some "primary-key" else none

/-- An upstream that succeeds for the backup credential and fails with a
plain 500 for every other credential. -/
def fetchKeyed : Upstream := fun _ _ key _ =>
  if key = "backup-key" then .response 200 "img" else .response 500 "boom"

/-- C5 counterexample: with a backup credential configured and an upstream
that would succeed for it, a non-loading primary failure (plain 500 on
every attempt) still surfaces as a 500 after 4 attempts — no retry cycle
against the secondary credential happens (it would have returned 200). -/
theorem handler_no_secondary_credential_cex :
    envWithBackup "HUGGINGFACE_API_KEY_BACKUP" = some "backup-key" ∧
    fetchKeyed "prompthero/openjourney-v4"
        "cat, high quality, masterpiece, highly detailed, realistic"
        "backup-key" 0 = .response 200 "img" ∧
    (POST envWithBackup ⟨some (some "cat", none), none⟩ 0 emptyRequestLog
      fetchKeyed).response.status = 500 ∧
    (POST envWithBackup ⟨some (some "cat", none), none⟩ 0 emptyRequestLog
      fetchKeyed).upstreamCalls = 4 := by
  refine ⟨rfl, rfl, ?_, ?_⟩ <;>
  simp +decide [POST, envWithBackup, fetchKeyed, strFalsy, userIdOf,
    isRateLimited, isRateLimitedCore, pruneLog, emptyRequestLog, setLog,
    MAX_REQUESTS_PER_WINDOW, generateImageWithRetry, responseOk,
    MAX_RETRIES, GenOutcome.afterRetry, httpErrorMsg, strContains,
    modelIdOf, enhancedPromptOf]

/-- C5 amended: no secondary credential exists — `POST` reads only the
`HUGGINGFACE_API_KEY` environment variable and consults the upstream only
with that credential, so its outcome is unchanged by the backup variable
and by the upstream's behaviour on every other credential. -/
theorem handler_uses_only_primary_credential (env env' : Env)
    (req : PostRequest) (now : Int) (log : RequestLogMap)
    (fetch fetch' : Upstream)
    (henv : env "HUGGINGFACE_API_KEY" = env' "HUGGINGFACE_API_KEY")
    (hf : ∀ m p i,
      fetch m p ((env "HUGGINGFACE_API_KEY").getD "") i
        = fetch' m p ((env "HUGGINGFACE_API_KEY").getD "") i) :
    POST env req now log fetch = POST env' req now log fetch' := by
  rcases hb : req.jsonBody with _ | ⟨pf, mf⟩ <;> simp only [POST, hb]
  by_cases hpf : strFalsy pf
  · simp [hpf]
  · simp only [hpf, Bool.false_eq_true, if_false, ← henv]
    by_cases hk : strFalsy (env "HUGGINGFACE_API_KEY")
    · simp [hk]
    · have hgen := generateImageWithRetry_congr fetch fetch'
        (modelIdOf mf) (enhancedPromptOf mf (pf.getD ""))
        ((env "HUGGINGFACE_API_KEY").getD "") 0 (hf _ _)
      simp only [hk, Bool.false_eq_true, if_false, hgen]

/-- C5 amended witness: removing the backup variable from the environment
leaves the handler's result unchanged. -/
theorem handler_uses_only_primary_credential_witness :
    POST envWithBackup ⟨some (some "cat", none), none⟩ 0 emptyRequestLog
        fetchKeyed
      = POST envNoBackup ⟨some (some "cat", none), none⟩ 0 emptyRequestLog
        fetchKeyed :=
  handler_uses_only_primary_credential envWithBackup envNoBackup
    ⟨some (some "cat", none), none⟩ 0 emptyRequestLog fetchKeyed fetchKeyed
    rfl (fun _ _ _ => rfl)

/-- An environment with only the primary credential `"key"`. -/
def envPrimary : Env := fun name =>
  if name = "HUGGINGFACE_API_KEY" then some "key" else none

/-- An upstream failing with a plain 500 and body `"boom"`. -/
def fetch500 : Upstream := fun _ _ _ _ => .response 500 "boom"

/-- C6 counterexample: for a failure that is neither model-loading nor
rate-limited (an upstream 500 with body `boom`), the 500 response's message
is not generic — it embeds both the upstream status (`500`) and the
upstream response body (`boom`). -/
theorem handler_500_leaks_upstream_detail_cex :
    (POST envPrimary ⟨some (some "cat", none), none⟩ 0 emptyRequestLog
      fetch500).response
      = ⟨500, .error
        "Failed to generate image: HTTP error! status: 500, body: boom"⟩ ∧
    strContains
      "Failed to generate image: HTTP error! status: 500, body: boom"
      "boom" = true ∧
    strContains
      "Failed to generate image: HTTP error! status: 500, body: boom"
      "500" = true := by
  refine ⟨?_, by decide, by decide⟩
  simp +decide [POST, envPrimary, fetch500, strFalsy, userIdOf,
    isRateLimited, isRateLimitedCore, pruneLog, emptyRequestLog, setLog,
    MAX_REQUESTS_PER_WINDOW, generateImageWithRetry, responseOk,
    MAX_RETRIES, GenOutcome.afterRetry, httpErrorMsg, strContains,
    modelIdOf, enhancedPromptOf]

/-- C6 amended: when generation fails with a message that signals neither
model-loading (`"503"`) nor rate-limiting (`"429"`), the handler returns
HTTP 500 whose message embeds the failure's own message — for upstream HTTP
failures this message carries the upstream status and body, so the detail is
surfaced to the caller rather than replaced by a generic one. -/
theorem handler_500_embeds_failure_message (env : Env) (req : PostRequest)
    (now : Int) (log : RequestLogMap) (fetch : Upstream)
    (pf mf : Option String) (key msg : String)
    (hbody : req.jsonBody = some (pf, mf))
    (hpf : strFalsy pf = false)
    (henv : env "HUGGINGFACE_API_KEY" = some key)
    (hkey : key ≠ "")
    (hrl : (isRateLimited (userIdOf req.forwardedFor) now log).1 = false)
    (hgen : (generateImageWithRetry fetch (modelIdOf mf)
        (enhancedPromptOf mf (pf.getD "")) key 0).result = .error msg)
    (h429 : strContains msg "429" = false)
    (h503 : strContains msg "503" = false)
    (hne : msg ≠ "") :
    (POST env req now log fetch).response
      = ⟨500, .error ("Failed to generate image: " ++ msg)⟩ := by
  have hkf : strFalsy (env "HUGGINGFACE_API_KEY") = false := by
    simp [strFalsy, henv, hkey]
  have hkf' : strFalsy (some key) = false := by
    simp [strFalsy, hkey]
  simp only [POST, hbody, hpf, hkf, Bool.false_eq_true, if_false, henv,
    Option.getD_some, hrl, hgen, h429, h503]
  simp [hne, hkf']

/-- C6 amended witness: the plain-500 upstream scenario realizes the
embedded-detail 500 response. -/
theorem handler_500_embeds_failure_message_witness :
    (POST envPrimary ⟨some (some "cat", none), none⟩ 0 emptyRequestLog
      fetch500).response
      = ⟨500, .error ("Failed to generate image: "
          ++ httpErrorMsg 500 "boom")⟩ :=
  handler_500_embeds_failure_message envPrimary
    ⟨some (some "cat", none), none⟩ 0 emptyRequestLog fetch500
    (some "cat") none "key" (httpErrorMsg 500 "boom") rfl (by decide) rfl
    (by decide) (by decide)
    (by simp [generateImageWithRetry, fetch500, responseOk, MAX_RETRIES,
      GenOutcome.afterRetry, modelIdOf, enhancedPromptOf])
    (by decide) (by decide) (by decide)

end Route
